import Mathlib

/-!
Verification development for the checkout backend.

The definitions below are a shallow embedding of the TypeScript sources:
  - `src/services/stripe.ts` (unit-price computation, session metadata layout),
  - `src/routes/users.ts` (the checkout routes: webhook handler,
    create-order-from-session handler),
  - the Supabase service layer (order store primitives).
JavaScript numbers reachable here are modelled as rationals (prices) or as
`Option Int` (results of `parseInt`, where `none` stands for `NaN`).
-/

namespace Backend

/-- JavaScript `a || d` on an optional string field `a` with string default
`d`: `undefined` and the empty string are falsy and give the default. -/
def orFalsy (v : Option String) (d : String) : String :=
  match v with
  | none => d
  | some s => if s = "" then d else s

/-- JavaScript `a || null` on an optional string field: `undefined` and the
empty string give `null` (here `none`). -/
def orNull (v : Option String) : Option String :=
  match v with
  | none => none
  | some s => if s = "" then none else some s

/-- Consume the leading run of decimal digits of a character list,
accumulating onto `acc`; stops at the first non-digit.  `none` means no
digit was consumed at all. -/
def parseDigits : List Char → Option Nat → Option Nat
  | [], acc => acc
  | c :: cs, acc =>
    if c.isDigit then parseDigits cs (some ((acc.getD 0) * 10 + (c.toNat - 48)))
    else acc

/-- JavaScript `parseInt(s)` (radix 10): skip leading whitespace, optional
sign, then the longest leading digit run; `none` models `NaN`.  (The
hexadecimal `0x` prefix special case of `parseInt` is not modelled: no
metadata string produced by this backend carries it.) -/
def jsParseInt (s : String) : Option Int :=
  match s.data.dropWhile (·.isWhitespace) with
  | '-' :: rest => (parseDigits rest none).map (fun n => -(n : Int))
  | '+' :: rest => (parseDigits rest none).map (fun n => (n : Int))
  | cs => (parseDigits cs none).map (fun n => (n : Int))

/-- JavaScript `Math.round`: round half toward positive infinity. -/
def jsRound (x : ℚ) : ℤ := ⌊x + 1 / 2⌋

/-! ## Cart items and unit-price computation (`src/services/stripe.ts`) -/

/-- The `product` part of a `CartItem` (`src/types/checkout.ts`): the fields
`calculateUnitPrice` reads.  `discount_percentage` is optional in the source
(`undefined` = `none`). -/
structure ProductInfo where
  id : String
  price : ℚ
  discount_percentage : Option ℚ
deriving Repr, DecidableEq

/-- The `activeEvent` part of a `CartItem`. -/
structure ActiveEvent where
  discount_percentage : Option ℚ
deriving Repr, DecidableEq

/-- A cart line entry (`CartItem` in `src/types/checkout.ts`). -/
structure CartItem where
  product : ProductInfo
  quantity : ℚ
  activeEvent : Option ActiveEvent
deriving Repr, DecidableEq

/-- `calculateUnitPrice` (`src/services/stripe.ts` lines 68–87), translated
branch for branch.  `productDiscount` / `eventDiscount` are the truthiness
tests `d && d > 0`; the ternary chain yields `0` (not `undefined`) in the
final else, and the last guard `discountPercentage && discountPercentage > 0`
is truthiness of the number conjoined with positivity. -/
def calculateUnitPrice (item : CartItem) : ℚ :=
  let basePrice := item.product.price
  let productDiscount : Bool :=
    match item.product.discount_percentage with
    | some d => decide (0 < d)
    | none => false
  let eventDiscount : Bool :=
    match item.activeEvent with
    | some ev =>
      match ev.discount_percentage with
      | some d => decide (0 < d)
      | none => false
    | none => false
  let discountPercentage : Option ℚ :=
    if productDiscount then item.product.discount_percentage
    else if eventDiscount then item.activeEvent.bind (·.discount_percentage)
    else some 0
  match discountPercentage with
  | some d => if 0 < d then ((jsRound (basePrice * (1 - d / 100)) : ℤ) : ℚ) else basePrice
  | none => basePrice

/-- The unit-price formula exactly as the spec's words state it (for
refinement comparison with `calculateUnitPrice`): product discount takes
precedence over event discount, and every branch — including the
no-discount one — is "rounded to the nearest integer". -/
def specUnitPrice (item : CartItem) : ℚ :=
  let base := item.product.price
  let pd := (item.product.discount_percentage).getD 0
  let ed := ((item.activeEvent.bind (·.discount_percentage)).getD 0)
  if 0 < pd then ((jsRound (base * (1 - pd / 100)) : ℤ) : ℚ)
  else if 0 < ed then ((jsRound (base * (1 - ed / 100)) : ℤ) : ℚ)
  else ((jsRound base : ℤ) : ℚ)

/-- The spec's unit-price formula amended to match the source: the final
no-discount branch returns `basePrice` unrounded. -/
def amendedUnitPrice (item : CartItem) : ℚ :=
  let base := item.product.price
  let pd := (item.product.discount_percentage).getD 0
  let ed := ((item.activeEvent.bind (·.discount_percentage)).getD 0)
  if 0 < pd then ((jsRound (base * (1 - pd / 100)) : ℤ) : ℚ)
  else if 0 < ed then ((jsRound (base * (1 - ed / 100)) : ℤ) : ℚ)
  else base

/-! ## Data model (`src/types/checkout.ts` and the orders schema) -/

/-- `ShippingInfo` (`src/types/checkout.ts`); in the route handlers every
field is filled with a `|| ''`-style default, so plain strings. -/
structure ShippingInfo where
  fullName : String
  email : String
  phone : String
  address : String
  city : String
  postalCode : String
  country : String
deriving Repr, DecidableEq

/-- One entry of the JSON-encoded `metadata.items` array
(`src/services/stripe.ts` lines 168–174). -/
structure MetaItem where
  product_id : String
  quantity : ℚ
  unit_price : ℚ
deriving Repr, DecidableEq

/-- The flat string-keyed Stripe session metadata as the route handlers read
it.  `none` models an absent key; `items` holds the already-parsed value of
the JSON `items` string (an absent key parses as `[]` via `|| '[]'`; a parse
failure is folded into the items-step failure oracle of the handlers). -/
structure Metadata where
  shipping_name : Option String := none
  shipping_email : Option String := none
  shipping_phone : Option String := none
  shipping_address : Option String := none
  shipping_city : Option String := none
  shipping_postal_code : Option String := none
  shipping_country : Option String := none
  discount_code : Option String := none
  discount_amount : Option String := none
  total : Option String := none
  currency : Option String := none
  items : Option (List MetaItem) := none
deriving Repr, DecidableEq

/-- `OrderData` (`src/types/checkout.ts`): the row sent to
`supabaseService.createOrder`.  `total_amount`/`discount_amount` are
`parseInt` results (`none` = `NaN`); both creation paths always set
`stripe_session_id`, so it is a plain string here. -/
structure OrderData where
  user_id : Option String := none
  total_amount : Option Int
  currency : String
  shipping : ShippingInfo
  status : String
  discount_code : Option String
  discount_amount : Option Int
  stripe_session_id : String
  payment_method : String
deriving Repr, DecidableEq

/-- A persisted `orders` row: the inserted `OrderData` plus the id the store
assigned. -/
structure OrderRow where
  id : Nat
  user_id : Option String := none
  total_amount : Option Int
  currency : String
  shipping : ShippingInfo
  status : String
  discount_code : Option String
  discount_amount : Option Int
  stripe_session_id : String
  payment_method : String
deriving Repr, DecidableEq

/-- `OrderItemData` (`src/types/checkout.ts`): a persisted `order_items`
row. -/
structure OrderItemData where
  order_id : Nat
  product_id : String
  quantity : ℚ
  unit_price : ℚ
deriving Repr, DecidableEq

/-- Attach a store-assigned id to an `OrderData`. -/
def OrderData.toRow (od : OrderData) (id : Nat) : OrderRow :=
  { id := id, user_id := od.user_id, total_amount := od.total_amount,
    currency := od.currency, shipping := od.shipping, status := od.status,
    discount_code := od.discount_code, discount_amount := od.discount_amount,
    stripe_session_id := od.stripe_session_id,
    payment_method := od.payment_method }

/-! ## Order store (Supabase service layer, with the spec's uniqueness
contract) -/

/-- The orders database: `orders` and `order_items` tables plus a fresh-id
counter. -/
structure Store where
  orders : List OrderRow
  items : List OrderItemData
  nextId : Nat
deriving Repr, DecidableEq

/-- The empty database. -/
def store0 : Store := ⟨[], [], 0⟩

/-- `supabaseService.getOrderBySessionId` row lookup (returns `null`, here
`none`, when no row matches). -/
def findBySessionId (s : Store) (sid : String) : Option OrderRow :=
  s.orders.find? (fun o => o.stripe_session_id == sid)

/-- `supabaseService.getOrderById` row lookup. -/
def findById (s : Store) (oid : Nat) : Option OrderRow :=
  s.orders.find? (fun o => o.id == oid)

/-- The `order_items` rows belonging to an order (the `order_items (...)`
part of the service's `select`). -/
def itemsOf (s : Store) (oid : Nat) : List OrderItemData :=
  s.items.filter (fun it => it.order_id == oid)

/-- Modelled from the spec: `insertOrder -> Order | DuplicateSessionId`
(§4.3).  The orders schema lives in Supabase, outside this repository; the
spec requires the store to enforce uniqueness of the external session id at
the storage layer, so the insert atomically fails when a row with the same
`stripe_session_id` already exists (`supabaseService.createOrder` then
throws). -/
def insertOrder (s : Store) (od : OrderData) : Except Unit (OrderRow × Store) :=
  if s.orders.any (fun o => o.stripe_session_id == od.stripe_session_id) then
    .error ()
  else
    let row := od.toRow s.nextId
    .ok (row, ⟨s.orders ++ [row], s.items, s.nextId + 1⟩)

/-- `supabaseService.addOrderItems`: bulk insert of `order_items` rows. -/
def addOrderItems (s : Store) (its : List OrderItemData) : Store :=
  ⟨s.orders, s.items ++ its, s.nextId⟩

/-- `supabaseService.updateOrderStatus`: sets `status`, and also overwrites
`stripe_session_id` when the passed session id is truthy. -/
def updateOrderStatus (s : Store) (oid : Nat) (status sid : String) : Store :=
  ⟨s.orders.map (fun o =>
      if o.id == oid then
        { o with status := status,
                 stripe_session_id := if sid = "" then o.stripe_session_id else sid }
      else o),
    s.items, s.nextId⟩

/-- An order value as the handlers pass it around: the row plus, when it was
fetched via `getOrderBySessionId`/`getOrderById` (whose `select` attaches
`order_items`), the attached items; an order freshly returned by
`createOrder` has no items attached (`none`). -/
structure OrderView where
  row : OrderRow
  items : Option (List OrderItemData)
deriving Repr, DecidableEq

/-- Fetch an order's full view with its items attached. -/
def viewOf (s : Store) (o : OrderRow) : OrderView :=
  ⟨o, some (itemsOf s o.id)⟩

/-! ## Session payloads and the metadata-derived order fields
(`src/routes/users.ts`, checkout router) -/

/-- The fields of a Stripe checkout session the handlers read: for the
webhook this is `event.data.object`, for create-order-from-session the
result of `retrieveCheckoutSession`. -/
structure SessionInfo where
  id : String
  payment_status : String
  customer_email : Option String := none
  metadata : Option Metadata := none
deriving Repr, DecidableEq

/-- Shipping info parsed from metadata (`src/routes/users.ts` lines 382–390
and 547–555, identical on both paths): each field defaults via `||`, and the
email falls back to the session's `customer_email`. -/
def mkShippingInfo (m : Metadata) (cust : Option String) : ShippingInfo :=
  { fullName := orFalsy m.shipping_name ""
    email := orFalsy m.shipping_email (orFalsy cust "")
    phone := orFalsy m.shipping_phone ""
    address := orFalsy m.shipping_address ""
    city := orFalsy m.shipping_city ""
    postalCode := orFalsy m.shipping_postal_code ""
    country := orFalsy m.shipping_country "" }

/-- The `orderData` object built from session metadata
(`src/routes/users.ts` lines 400–409 and 558–567, identical on both paths):
`parseInt(metadata.total || '0')`, currency defaulting to `'SEK'`, status
`'processing'`, `discount_code || null`, and the trigger's session id. -/
def mkOrderData (m : Metadata) (sid : String) (cust : Option String) : OrderData :=
  { total_amount := jsParseInt (orFalsy m.total "0")
    currency := orFalsy m.currency "SEK"
    shipping := mkShippingInfo m cust
    status := "processing"
    discount_code := orNull m.discount_code
    discount_amount := jsParseInt (orFalsy m.discount_amount "0")
    stripe_session_id := sid
    payment_method := "stripe" }

/-- The `orderItems` array mapped from the parsed metadata items and bound
to the new order id (`src/routes/users.ts` lines 422–428 and 574–580). -/
def mkOrderItems (l : List MetaItem) (oid : Nat) : List OrderItemData :=
  l.map (fun it => ⟨oid, it.product_id, it.quantity, it.unit_price⟩)

/-- Observable side effects of one handler invocation, in program order.
`emailEv` records an email dispatch attempt: the order value it was invoked
with, the session id, and whether the send succeeded (the handlers only log
a failure). -/
inductive Ev where
  | createOrderEv (row : OrderRow)
  | addItemsEv (its : List OrderItemData)
  | statusUpdateEv (oid : Nat) (status : String)
  | emailEv (order : OrderView) (sid : String) (ok : Bool)
deriving Repr, DecidableEq

/-- Outcome of one handler invocation: HTTP status of the response, the
order included in the response body (when any), the database afterwards, and
the side-effect trace. -/
structure Res where
  status : Nat
  order : Option OrderView
  store : Store
  trace : List Ev
deriving Repr, DecidableEq

/-- `POST /api/checkout/create-order-from-session`
(`src/routes/users.ts` lines 507–625), translated control-flow step by step.
`gw` is the session returned by `retrieveCheckoutSession`; `itemsFail` makes
the items try-block (JSON parse / insert / re-fetch) throw before writing,
`emailFail` makes the email dispatch throw.  A `createOrder` failure
(including the store's duplicate-session rejection) propagates to the outer
catch, which responds 500. -/
def createOrderFromSession (st : Store) (sessionId : String) (gw : SessionInfo)
    (itemsFail emailFail : Bool) : Res :=
  if sessionId = "" then ⟨400, none, st, []⟩
  else
    match findBySessionId st sessionId with
    | some o => ⟨200, some (viewOf st o), st, []⟩
    | none =>
      if gw.payment_status ≠ "paid" then ⟨400, none, st, []⟩
      else
        match gw.metadata with
        | none => ⟨400, none, st, []⟩
        | some m =>
          match insertOrder st (mkOrderData m sessionId gw.customer_email) with
          | .error _ => ⟨500, none, st, []⟩
          | .ok (row, s1) =>
            let created : OrderView := ⟨row, none⟩
            let afterItems : OrderView × Store × List Ev :=
              if itemsFail then (created, s1, [])
              else
                let its := mkOrderItems (m.items.getD []) row.id
                let s2 := addOrderItems s1 its
                match findById s2 row.id with
                | some o2 => (viewOf s2 o2, s2, [Ev.addItemsEv its])
                | none => (created, s2, [Ev.addItemsEv its])
            let order2 := afterItems.1
            let s2 := afterItems.2.1
            let ce :=
              if order2.row.shipping.email ≠ "" then order2.row.shipping.email
              else orFalsy gw.customer_email ""
            let emailTr :=
              if ce ≠ "" then [Ev.emailEv order2 sessionId (!emailFail)] else []
            ⟨200, some order2, s2, Ev.createOrderEv row :: afterItems.2.2 ++ emailTr⟩

/-- The `checkout.session.completed` case of `POST /api/checkout/webhook`
(`src/routes/users.ts` lines 364–461).  Paid-ness is taken from the
payload's own `payment_status`; a non-paid or metadata-less event just
breaks out and the webhook acknowledges with 200.  An existing order is
updated to `processing` whenever its status differs from `processing`.  A
`createOrder` failure is rethrown, so the outer catch responds 400.  The
confirmation email is sent with the order exactly as `createOrder` returned
it (no re-fetch, no items attached). -/
def webhookCompleted (st : Store) (session : SessionInfo)
    (itemsFail emailFail : Bool) : Res :=
  if session.payment_status = "paid" then
    match findBySessionId st session.id with
    | some o =>
      if o.status ≠ "processing" then
        ⟨200, none, updateOrderStatus st o.id "processing" session.id,
          [Ev.statusUpdateEv o.id "processing"]⟩
      else ⟨200, none, st, []⟩
    | none =>
      match session.metadata with
      | none => ⟨200, none, st, []⟩
      | some m =>
        match insertOrder st (mkOrderData m session.id session.customer_email) with
        | .error _ => ⟨400, none, st, []⟩
        | .ok (row, s1) =>
          let afterItems : Store × List Ev :=
            if itemsFail then (s1, [])
            else
              let its := mkOrderItems (m.items.getD []) row.id
              (addOrderItems s1 its, [Ev.addItemsEv its])
          let emailTr :=
            if row.shipping.email ≠ "" then
              [Ev.emailEv ⟨row, none⟩ session.id (!emailFail)]
            else []
          ⟨200, none, afterItems.1, Ev.createOrderEv row :: afterItems.2 ++ emailTr⟩
  else ⟨200, none, st, []⟩

/-- The `checkout.session.async_payment_succeeded` case of the webhook
(`src/routes/users.ts` lines 463–474): an existing order is set to
`processing`; otherwise nothing is written. -/
def webhookAsyncSucceeded (st : Store) (sid : String) : Res :=
  match findBySessionId st sid with
  | some o =>
    ⟨200, none, updateOrderStatus st o.id "processing" sid,
      [Ev.statusUpdateEv o.id "processing"]⟩
  | none => ⟨200, none, st, []⟩

/-- The `checkout.session.async_payment_failed` case of the webhook
(`src/routes/users.ts` lines 476–487): an existing order is set to
`pending` (not `cancelled`), regardless of its prior status; otherwise
nothing is written. -/
def webhookAsyncFailed (st : Store) (sid : String) : Res :=
  match findBySessionId st sid with
  | some o =>
    ⟨200, none, updateOrderStatus st o.id "pending" sid,
      [Ev.statusUpdateEv o.id "pending"]⟩
  | none => ⟨200, none, st, []⟩

/-! ## Interleaving model of racing materializations

Two invocations of `create-order-from-session` for the same session may run
concurrently; each store call is atomic, but between a handler's existence
check and its insert the other handler may run.  The per-invocation program
below is the store-visible skeleton of the handler (existence check →
insert → item insert → respond); the email step and the failure oracles are
covered by the sequential model above and touch no orders. -/

/-- The fixed inputs a racing invocation runs with: the session id, whether
the fresh gateway read reports `paid`, and the session metadata the order
fields derive from (a consistent payload, the same for both racers). -/
structure RaceCtx where
  sid : String
  paid : Bool
  meta : Metadata
  cust : Option String := none
deriving Repr, DecidableEq

/-- The `orderData` a racing invocation would insert. -/
def RaceCtx.orderData (c : RaceCtx) : OrderData :=
  mkOrderData c.meta c.sid c.cust

/-- Control state of one racing invocation of the handler, between its
atomic store calls.  `done http oid` is the final HTTP response, carrying
the id of the order returned in the body (if any). -/
inductive Proc where
  | checkExisting
  | insertOrd
  | insertIts (oid : Nat)
  | respond (oid : Nat)
  | done (http : Nat) (oid : Option Nat)
deriving Repr, DecidableEq

/-- One atomic store interaction of a racing invocation.
`checkExisting` is `getOrderBySessionId` plus the subsequent pure guards
(duplicate path returns the existing order; a non-paid fresh read responds
400); `insertOrd` is `createOrder`, whose failure propagates to the outer
catch (500 response, no re-read); `insertIts` is `addOrderItems`;
`respond` is the final 200 response with the created order. -/
def step (c : RaceCtx) (s : Store) : Proc → Store × Proc
  | .checkExisting =>
    match findBySessionId s c.sid with
    | some o => (s, .done 200 (some o.id))
    | none => if c.paid then (s, .insertOrd) else (s, .done 400 none)
  | .insertOrd =>
    match insertOrder s c.orderData with
    | .ok (row, s') => (s', .insertIts row.id)
    | .error _ => (s, .done 500 none)
  | .insertIts oid =>
    (addOrderItems s (mkOrderItems (c.meta.items.getD []) oid), .respond oid)
  | .respond oid => (s, .done 200 (some oid))
  | .done h o => (s, .done h o)

/-- Run two racing invocations `a` and `b` under a schedule: `true` steps
`a`, `false` steps `b` (a finished invocation's step is a no-op). -/
def race (c : RaceCtx) : Store → Proc → Proc → List Bool → Store × Proc × Proc
  | s, a, b, [] => (s, a, b)
  | s, a, b, true :: sch =>
    let p := step c s a
    race c p.1 p.2 b sch
  | s, a, b, false :: sch =>
    let p := step c s b
    race c p.1 a p.2 sch

/-- Number of orders in the store carrying the external session id `x`. -/
def countSid (s : Store) (x : String) : Nat :=
  (s.orders.filter (fun o => o.stripe_session_id == x)).length

/-! ## Observation helpers and concrete fixtures -/

/-- The order statuses a trace writes to the store: the status of every
inserted order row and of every status update, in order. -/
def statusWrites (tr : List Ev) : List String :=
  tr.filterMap (fun e =>
    match e with
    | .statusUpdateEv _ st => some st
    | .createOrderEv o => some o.status
    | _ => none)

/-- The attached-items component of the order value each email dispatch in a
trace was invoked with. -/
def emailViews (tr : List Ev) : List (Option (List OrderItemData)) :=
  tr.filterMap (fun e =>
    match e with
    | .emailEv v _ _ => some v.items
    | _ => none)

/-- Store sanity: every persisted id is below the fresh-id counter. -/
def Store.wf (s : Store) : Prop :=
  (∀ o ∈ s.orders, o.id < s.nextId) ∧ (∀ it ∈ s.items, it.order_id < s.nextId)

/-- Fixture: a consistent session metadata payload with one cart line. -/
def mdW : Metadata :=
  { total := some "1849", currency := some "SEK", shipping_email := some "a@b.se",
    items := some [⟨"prod1", 2, 900⟩] }

/-- Fixture: race context for session `cs_2` (the spec's §8 scenario). -/
def ctxC1 : RaceCtx := ⟨"cs_2", true, mdW, none⟩

/-- Fixture: metadata for the duplicate-insert scenario. -/
def mdDup : Metadata :=
  { total := some "500", shipping_email := some "c@d.se", items := some [⟨"p9", 1, 500⟩] }

/-- Fixture: race context for session `cs_dup`. -/
def ctxC2 : RaceCtx := ⟨"cs_dup", true, mdDup, none⟩

/-- Fixture: a store already holding the order for `cs_dup`. -/
def stDup : Store := ⟨[ctxC2.orderData.toRow 0], [], 1⟩

/-- Fixture: a retrieved session whose payment status is not `paid`. -/
def gwUnpaid : SessionInfo := ⟨"cs_3", "unpaid", some "x@y.se", none⟩

/-- Fixture: an order already persisted for session `cs_3`. -/
def rowC3 : OrderRow :=
  { id := 0, total_amount := some 100, currency := "SEK",
    shipping := ⟨"N", "x@y.se", "", "A", "C", "P", "SE"⟩, status := "processing",
    discount_code := none, discount_amount := some 0,
    stripe_session_id := "cs_3", payment_method := "stripe" }

/-- Fixture: a store holding `rowC3`. -/
def stC3 : Store := ⟨[rowC3], [], 1⟩

/-- Fixture: an order for `cs_4` whose status is already `shipped` (beyond
`pending` in the spec's state table). -/
def rowC4 : OrderRow :=
  { id := 0, total_amount := some 100, currency := "SEK",
    shipping := ⟨"N", "x@y.se", "", "A", "C", "P", "SE"⟩, status := "shipped",
    discount_code := none, discount_amount := some 0,
    stripe_session_id := "cs_4", payment_method := "stripe" }

/-- Fixture: a store holding `rowC4`. -/
def stC4 : Store := ⟨[rowC4], [], 1⟩

/-- Fixture: a paid `checkout.session.completed` payload for `cs_4`. -/
def sessC4 : SessionInfo := ⟨"cs_4", "paid", none, none⟩

/-- Fixture: metadata with one item and a shipping email. -/
def mdC5 : Metadata :=
  { total := some "900", shipping_email := some "w@x.se", items := some [⟨"p5", 1, 900⟩] }

/-- Fixture: a paid session carrying `mdC5`. -/
def sessC5 : SessionInfo := ⟨"cs_5", "paid", none, some mdC5⟩

/-- Fixture: metadata for the items-failure scenario. -/
def mdC8 : Metadata :=
  { total := some "300", shipping_email := some "i@j.se", items := some [⟨"p8", 3, 100⟩] }

/-- Fixture: a paid session carrying `mdC8`. -/
def sessC8 : SessionInfo := ⟨"cs_8", "paid", none, some mdC8⟩

/-- Fixture: metadata for the email-failure scenario. -/
def mdC9 : Metadata :=
  { total := some "42", shipping_email := some "e@f.se", items := some [⟨"p9a", 1, 42⟩] }

/-- Fixture: a paid session carrying `mdC9`. -/
def sessC9 : SessionInfo := ⟨"cs_9", "paid", none, some mdC9⟩

/-- Fixture: an order for `cs_7` whose status is `shipped`. -/
def rowC7 : OrderRow :=
  { id := 0, total_amount := some 100, currency := "SEK",
    shipping := ⟨"N", "q@r.se", "", "A", "C", "P", "SE"⟩, status := "shipped",
    discount_code := none, discount_amount := some 0,
    stripe_session_id := "cs_7", payment_method := "stripe" }

/-- Fixture: a store holding `rowC7`. -/
def stC7 : Store := ⟨[rowC7], [], 1⟩

/-- Fixture: metadata with a fractional total, an empty discount string and
no currency. -/
def mdC10 : Metadata :=
  { total := some "1849.5", currency := none, discount_amount := some "" }

/-! ## Helper lemmas -/

lemma countSid_step_le (c : RaceCtx) (s : Store) (p : Proc) (x : String)
    (h : countSid s x ≤ 1) : countSid (step c s p).1 x ≤ 1 := by
  cases p with
  | checkExisting =>
    unfold step
    cases hf : findBySessionId s c.sid with
    | some o => simpa using h
    | none => by_cases hp : c.paid = true <;> simp [hp, h]
  | insertOrd =>
    unfold step insertOrder
    cases ha : s.orders.any (fun o => o.stripe_session_id == c.orderData.stripe_session_id) with
    | true => simpa [ha] using h
    | false =>
      simp only [ha, Bool.false_eq_true, if_false]
      unfold countSid
      simp only [List.filter_append]
      rcases eq_or_ne c.orderData.stripe_session_id x with hx | hx
      · have h0 : s.orders.filter (fun o => o.stripe_session_id == x) = [] := by
          rw [List.filter_eq_nil_iff]
          intro o ho
          have := List.any_eq_false.mp ha o ho
          simpa [hx] using this
        simp [h0, OrderData.toRow, hx]
      · have h1 : ([(c.orderData).toRow s.nextId].filter
            (fun o => o.stripe_session_id == x)) = [] := by
          simp [OrderData.toRow, hx]
        simp only [h1, List.length_append, List.length_nil, Nat.add_zero]
        exact h
  | insertIts oid => simpa [step, addOrderItems, countSid] using h
  | respond oid => simpa [step] using h
  | done hh oo => simpa [step] using h

lemma countSid_race_le (c : RaceCtx) (sch : List Bool) :
    ∀ s a b x, countSid s x ≤ 1 → countSid (race c s a b sch).1 x ≤ 1 := by
  induction sch with
  | nil => intro s a b x h; simpa [race] using h
  | cons bit sch ih =>
    intro s a b x h
    cases bit with
    | true => exact ih _ _ _ x (countSid_step_le c s a x h)
    | false => exact ih _ _ _ x (countSid_step_le c s b x h)

lemma race_seq (c : RaceCtx) (hp : c.paid = true) :
    race c store0 .checkExisting .checkExisting [true, true, true, true, false] =
      (⟨[c.orderData.toRow 0], mkOrderItems (c.meta.items.getD []) 0, 1⟩,
        .done 200 (some 0), .done 200 (some 0)) := by
  simp [race, step, findBySessionId, insertOrder, store0, hp, addOrderItems,
    OrderData.toRow, RaceCtx.orderData, mkOrderData, List.find?]

lemma any_sid_eq_false (st : Store) (sid : String)
    (h : findBySessionId st sid = none) :
    st.orders.any (fun o => o.stripe_session_id == sid) = false := by
  unfold findBySessionId at h
  rw [List.find?_eq_none] at h
  simp only [List.any_eq_false]
  intro o ho
  simpa using h o ho

lemma find_id_fresh (l : List OrderRow) (row : OrderRow)
    (h : ∀ o ∈ l, o.id ≠ row.id) :
    (l ++ [row]).find? (fun o => o.id == row.id) = some row := by
  induction l with
  | nil => simp
  | cons o t ih =>
    have ho : (o.id == row.id) = false := by
      simpa using h o (List.mem_cons_self o t)
    simp only [List.cons_append, List.find?_cons, ho]
    exact ih (fun o' ho' => h o' (List.mem_cons_of_mem _ ho'))

lemma itemsOf_fresh (old : List OrderItemData) (its : List OrderItemData)
    (ords : List OrderRow) (n : Nat) (oid : Nat)
    (hold : ∀ it ∈ old, it.order_id ≠ oid)
    (hits : ∀ it ∈ its, it.order_id = oid) :
    itemsOf ⟨ords, old ++ its, n⟩ oid = its := by
  unfold itemsOf
  simp only [List.filter_append]
  have h1 : old.filter (fun it => it.order_id == oid) = [] := by
    rw [List.filter_eq_nil_iff]
    intro it hit
    simpa using hold it hit
  have h2 : its.filter (fun it => it.order_id == oid) = its := by
    rw [List.filter_eq_self]
    intro it hit
    simpa using hits it hit
  rw [h1, h2, List.nil_append]

lemma statusWrites_webhookCompleted (st : Store) (session : SessionInfo) (iF eF : Bool) :
    ∀ s ∈ statusWrites (webhookCompleted st session iF eF).trace,
      s = "processing" ∨ s = "pending" := by
  unfold webhookCompleted
  by_cases hp : session.payment_status = "paid"
  · simp only [hp, if_pos rfl, ite_true]
    cases hf : findBySessionId st session.id with
    | some o =>
      by_cases ho : o.status ≠ "processing" <;> simp [hf, ho, statusWrites]
    | none =>
      cases hm : session.metadata with
      | none => simp [hf, hm, statusWrites]
      | some m =>
        by_cases ha : st.orders.any (fun o =>
            o.stripe_session_id ==
              (mkOrderData m session.id session.customer_email).stripe_session_id) = true
        · simp [hf, hm, insertOrder, ha, statusWrites]
        · simp only [hf, hm, insertOrder, ha, Bool.false_eq_true, if_false]
          by_cases hif : iF = true <;>
            simp [hif, statusWrites, List.filterMap_cons, List.filterMap_append,
              mkOrderData, OrderData.toRow, apply_ite]
  · simp [hp, statusWrites]

lemma statusWrites_createOrderFromSession (st : Store) (sid : String)
    (gw : SessionInfo) (iF eF : Bool) :
    ∀ s ∈ statusWrites (createOrderFromSession st sid gw iF eF).trace,
      s = "processing" ∨ s = "pending" := by
  unfold createOrderFromSession
  by_cases hs : sid = ""
  · simp [hs, statusWrites]
  · simp only [hs, if_neg, ite_false, if_false]
    cases hf : findBySessionId st sid with
    | some o => simp [statusWrites]
    | none =>
      by_cases hp : gw.payment_status ≠ "paid"
      · simp [hp, statusWrites]
      · simp only [hp, ite_false, if_neg, not_true_eq_false, if_false]
        cases hm : gw.metadata with
        | none => simp [statusWrites]
        | some m =>
          by_cases ha : st.orders.any (fun o =>
              o.stripe_session_id ==
                (mkOrderData m sid gw.customer_email).stripe_session_id) = true
          · simp [insertOrder, ha, statusWrites]
          · simp only [insertOrder, ha, Bool.false_eq_true, if_false]
            by_cases hif : iF = true <;>
              simp [hif, statusWrites, List.filterMap_cons, List.filterMap_append,
                mkOrderData, OrderData.toRow, apply_ite] <;>
              split <;>
              simp [statusWrites, List.filterMap_cons, List.filterMap_append, apply_ite]

lemma statusWrites_asyncSucceeded (st : Store) (sid : String) :
    ∀ s ∈ statusWrites (webhookAsyncSucceeded st sid).trace,
      s = "processing" ∨ s = "pending" := by
  unfold webhookAsyncSucceeded
  cases hf : findBySessionId st sid <;> simp [statusWrites]

lemma statusWrites_asyncFailed (st : Store) (sid : String) :
    ∀ s ∈ statusWrites (webhookAsyncFailed st sid).trace,
      s = "processing" ∨ s = "pending" := by
  unfold webhookAsyncFailed
  cases hf : findBySessionId st sid <;> simp [statusWrites]

lemma cofs_success_run (st : Store) (sid : String) (gw : SessionInfo)
    (m : Metadata) (eF : Bool) (hwf : st.wf) (hs : sid ≠ "")
    (hfind : findBySessionId st sid = none) (hp : gw.payment_status = "paid")
    (hm : gw.metadata = some m)
    (hem : (mkShippingInfo m gw.customer_email).email ≠ "") :
    createOrderFromSession st sid gw false eF =
      ⟨200,
        some ⟨(mkOrderData m sid gw.customer_email).toRow st.nextId,
              some (mkOrderItems (m.items.getD []) st.nextId)⟩,
        ⟨st.orders ++ [(mkOrderData m sid gw.customer_email).toRow st.nextId],
          st.items ++ mkOrderItems (m.items.getD []) st.nextId, st.nextId + 1⟩,
        [Ev.createOrderEv ((mkOrderData m sid gw.customer_email).toRow st.nextId),
         Ev.addItemsEv (mkOrderItems (m.items.getD []) st.nextId),
         Ev.emailEv ⟨(mkOrderData m sid gw.customer_email).toRow st.nextId,
                     some (mkOrderItems (m.items.getD []) st.nextId)⟩ sid (!eF)]⟩ := by
  have ha := any_sid_eq_false st sid hfind
  set od := mkOrderData m sid gw.customer_email with hod
  set row := od.toRow st.nextId with hrow
  set its := mkOrderItems (m.items.getD []) st.nextId with hits
  have hrowid : row.id = st.nextId := rfl
  have hrowsid : od.stripe_session_id = sid := rfl
  have hfid : (st.orders ++ [row]).find? (fun o => o.id == row.id) = some row := by
    apply find_id_fresh
    intro o ho
    have := hwf.1 o ho
    omega
  have hio : itemsOf ⟨st.orders ++ [row],
      st.items ++ mkOrderItems (m.items.getD []) row.id, st.nextId + 1⟩ row.id =
      mkOrderItems (m.items.getD []) row.id := by
    apply itemsOf_fresh
    · intro it hit
      have h2 := hwf.2 it hit
      rw [hrowid]
      omega
    · intro it hit
      unfold mkOrderItems at hit
      simp only [List.mem_map] at hit
      obtain ⟨a, _, rfl⟩ := hit
      rfl
  unfold createOrderFromSession
  simp only [hs, if_neg, ite_false]
  rw [hfind]
  simp only [hp, ne_eq, not_true_eq_false, ite_false, if_neg]
  rw [hm]
  simp only [insertOrder, ← hod, hrowsid, ha, Bool.false_eq_true, if_false, ← hrow]
  simp only [addOrderItems, findById]
  rw [hfid]
  simp only [viewOf]
  rw [hio]
  have hce : row.shipping.email ≠ "" := hem
  simp only [hce, ne_eq, not_false_eq_true, ite_true, if_pos]
  rfl

lemma webhook_success_run (st : Store) (session : SessionInfo) (m : Metadata) (eF : Bool)
    (hp : session.payment_status = "paid")
    (hfind : findBySessionId st session.id = none)
    (hm : session.metadata = some m)
    (hem : (mkShippingInfo m session.customer_email).email ≠ "") :
    webhookCompleted st session false eF =
      ⟨200, none,
        ⟨st.orders ++ [(mkOrderData m session.id session.customer_email).toRow st.nextId],
          st.items ++ mkOrderItems (m.items.getD []) st.nextId, st.nextId + 1⟩,
        [Ev.createOrderEv ((mkOrderData m session.id session.customer_email).toRow st.nextId),
         Ev.addItemsEv (mkOrderItems (m.items.getD []) st.nextId),
         Ev.emailEv ⟨(mkOrderData m session.id session.customer_email).toRow st.nextId, none⟩
           session.id (!eF)]⟩ := by
  have ha := any_sid_eq_false st session.id hfind
  set od := mkOrderData m session.id session.customer_email with hod
  set row := od.toRow st.nextId with hrow
  have hrowsid : od.stripe_session_id = session.id := rfl
  have hce : row.shipping.email ≠ "" := hem
  unfold webhookCompleted
  simp only [hp, if_pos rfl, ite_true]
  rw [hfind, hm]
  simp only [insertOrder, ← hod, hrowsid, ha, Bool.false_eq_true, if_false, ← hrow]
  simp only [addOrderItems]
  simp only [hce, ne_eq, not_false_eq_true, ite_true, if_pos]
  rfl

lemma cofs_items_fail_run (st : Store) (sid : String) (gw : SessionInfo)
    (m : Metadata) (eF : Bool) (hs : sid ≠ "")
    (hfind : findBySessionId st sid = none) (hp : gw.payment_status = "paid")
    (hm : gw.metadata = some m)
    (hem : (mkShippingInfo m gw.customer_email).email ≠ "") :
    createOrderFromSession st sid gw true eF =
      ⟨200, some ⟨(mkOrderData m sid gw.customer_email).toRow st.nextId, none⟩,
        ⟨st.orders ++ [(mkOrderData m sid gw.customer_email).toRow st.nextId],
          st.items, st.nextId + 1⟩,
        [Ev.createOrderEv ((mkOrderData m sid gw.customer_email).toRow st.nextId),
         Ev.emailEv ⟨(mkOrderData m sid gw.customer_email).toRow st.nextId, none⟩
           sid (!eF)]⟩ := by
  have ha := any_sid_eq_false st sid hfind
  set od := mkOrderData m sid gw.customer_email with hod
  set row := od.toRow st.nextId with hrow
  have hrowsid : od.stripe_session_id = sid := rfl
  have hce : row.shipping.email ≠ "" := hem
  unfold createOrderFromSession
  simp only [hs, if_neg, ite_false]
  rw [hfind]
  simp only [hp, ne_eq, not_true_eq_false, ite_false, if_neg]
  rw [hm]
  simp only [insertOrder, ← hod, hrowsid, ha, Bool.false_eq_true, if_false, ← hrow]
  simp only [hce, ne_eq, not_false_eq_true, ite_true, if_pos]
  rfl

lemma webhook_items_fail_run (st : Store) (session : SessionInfo) (m : Metadata) (eF : Bool)
    (hp : session.payment_status = "paid")
    (hfind : findBySessionId st session.id = none)
    (hm : session.metadata = some m)
    (hem : (mkShippingInfo m session.customer_email).email ≠ "") :
    webhookCompleted st session true eF =
      ⟨200, none,
        ⟨st.orders ++ [(mkOrderData m session.id session.customer_email).toRow st.nextId],
          st.items, st.nextId + 1⟩,
        [Ev.createOrderEv ((mkOrderData m session.id session.customer_email).toRow st.nextId),
         Ev.emailEv ⟨(mkOrderData m session.id session.customer_email).toRow st.nextId, none⟩
           session.id (!eF)]⟩ := by
  have ha := any_sid_eq_false st session.id hfind
  set od := mkOrderData m session.id session.customer_email with hod
  set row := od.toRow st.nextId with hrow
  have hrowsid : od.stripe_session_id = session.id := rfl
  have hce : row.shipping.email ≠ "" := hem
  unfold webhookCompleted
  simp only [hp, if_pos rfl, ite_true]
  rw [hfind, hm]
  simp only [insertOrder, ← hod, hrowsid, ha, Bool.false_eq_true, if_false, ← hrow]
  simp only [hce, ne_eq, not_false_eq_true, ite_true, if_pos]
  rfl

lemma cofs_email_indep (st : Store) (sid : String) (gw : SessionInfo) (iF : Bool) :
    (createOrderFromSession st sid gw iF true).status =
      (createOrderFromSession st sid gw iF false).status ∧
    (createOrderFromSession st sid gw iF true).order =
      (createOrderFromSession st sid gw iF false).order ∧
    (createOrderFromSession st sid gw iF true).store =
      (createOrderFromSession st sid gw iF false).store := by
  unfold createOrderFromSession
  by_cases hs : sid = ""
  · simp [hs]
  · simp only [hs, ite_false, if_neg]
    cases hf : findBySessionId st sid with
    | some o => simp [hf]
    | none =>
      by_cases hp : gw.payment_status ≠ "paid"
      · simp [hf, hp]
      · simp only [hf, hp, ite_false, if_neg, not_true_eq_false, if_false]
        cases hm : gw.metadata with
        | none => simp [hm]
        | some m =>
          cases hi : insertOrder st (mkOrderData m sid gw.customer_email) with
          | error e => simp [hm, hi]
          | ok pr => simp [hm, hi]

lemma webhook_email_indep (st : Store) (session : SessionInfo) (iF : Bool) :
    (webhookCompleted st session iF true).status =
      (webhookCompleted st session iF false).status ∧
    (webhookCompleted st session iF true).store =
      (webhookCompleted st session iF false).store := by
  unfold webhookCompleted
  by_cases hp : session.payment_status = "paid"
  · simp only [hp, if_pos rfl, ite_true]
    cases hf : findBySessionId st session.id with
    | some o => by_cases ho : o.status ≠ "processing" <;> simp [hf, ho]
    | none =>
      cases hm : session.metadata with
      | none => simp [hf, hm]
      | some m =>
        cases hi : insertOrder st (mkOrderData m session.id session.customer_email) with
        | error e => simp [hf, hm, hi]
        | ok pr => simp [hf, hm, hi]
  · simp [hp]

/-! ## Claims -/

/-- C1 (counterexample): with two concurrent invocations for the same
session, the invocation that passes the existence check second does not
find and return the existing Order — it hits the store's duplicate
rejection and ends with HTTP 500 and no order, while the first invocation
returns order 0.  This refutes "every invocation after the first finds the
existing Order by session id and returns it". -/
theorem race_second_caller_gets_error :
    (race ctxC1 store0 .checkExisting .checkExisting
        [true, false, false, false, false, true]).2.1 = .done 500 none ∧
    (race ctxC1 store0 .checkExisting .checkExisting
        [true, false, false, false, false, true]).2.2 = .done 200 (some 0) := by
  constructor <;> rfl

/-- C1 (amended): for every session id, under every interleaving of two
racing invocations the store never holds more than one Order with that
external session id (given the store-level uniqueness constraint); and when
the two invocations run sequentially, the first creates the Order with
exactly `len(items)` OrderItems and the second finds and returns the same
Order.  A concurrent invocation that loses the race, however, surfaces an
error instead of returning the existing Order. -/
theorem materialize_idempotency_amended (c : RaceCtx) (x : String) (hp : c.paid = true) :
    (∀ sch s a b, countSid s x ≤ 1 → countSid (race c s a b sch).1 x ≤ 1) ∧
    race c store0 .checkExisting .checkExisting [true, true, true, true, false] =
      (⟨[c.orderData.toRow 0], mkOrderItems (c.meta.items.getD []) 0, 1⟩,
        .done 200 (some 0), .done 200 (some 0)) ∧
    countSid ⟨[c.orderData.toRow 0], mkOrderItems (c.meta.items.getD []) 0, 1⟩ c.sid = 1 ∧
    (mkOrderItems (c.meta.items.getD []) 0).length = (c.meta.items.getD []).length := by
  refine ⟨fun sch s a b h => countSid_race_le c sch s a b x h, race_seq c hp, ?_, ?_⟩
  · simp [countSid, RaceCtx.orderData, OrderData.toRow, mkOrderData]
  · simp [mkOrderItems]

/-- C1 (witness): the amended idempotency theorem applied to the concrete
context `ctxC1` and a concrete schedule. -/
theorem materialize_idempotency_amended_witness :
    ctxC1.paid = true ∧
    countSid (race ctxC1 store0 .checkExisting .checkExisting
      [true, true, false, true, true, false]).1 "cs_2" ≤ 1 := by
  refine ⟨rfl, ?_⟩
  exact (materialize_idempotency_amended ctxC1 "cs_2" rfl).1 _ store0 _ _ (by decide)

/-- C2: when the Order insert hits the store's uniqueness rejection
(DuplicateSessionId), the handler does NOT re-read and return the existing
Order: the error propagates to the outer catch, the invocation ends with
HTTP 500 and no order in the response, and the store is untouched.  Shown
both at the single duplicate-insert step (against a store already holding
the order for `cs_dup`) and in a full two-invocation race. -/
theorem duplicate_insert_error_surfaced :
    step ctxC2 stDup .insertOrd = (stDup, .done 500 none) ∧
    (race ctxC2 store0 .checkExisting .checkExisting
        [false, true, true, false, false, false]).2.2 = .done 500 none := by
  constructor <;> rfl

/-- C3 (counterexample): for `create-order-from-session` with an existing
Order for `cs_3` and a gateway session whose payment status is `unpaid`,
the handler returns 200 with the existing Order — no payment-status check
happens and no 400 is returned, refuting "this ground-truth check is
performed before, and independently of, whether an Order already
exists". -/
theorem existing_order_bypasses_payment_check :
    gwUnpaid.payment_status ≠ "paid" ∧
    (createOrderFromSession stC3 "cs_3" gwUnpaid false false).status = 200 ∧
    (createOrderFromSession stC3 "cs_3" gwUnpaid false false).order =
      some (viewOf stC3 rowC3) := by
  refine ⟨by decide, rfl, rfl⟩

/-- C3 (amended): for `create-order-from-session`, when no Order exists for
the session, the freshly read payment status gates creation: a non-paid
status yields HTTP 400 with no Order created and no side effects.  The
existence check, however, runs before the payment check (a duplicate
invocation returns the existing Order without any payment verification),
and the webhook path simply skips a non-paid event with a 200
acknowledgement rather than failing. -/
theorem payment_gate_amended (st : Store) (sid : String) (gw : SessionInfo)
    (iF eF : Bool) (hfind : findBySessionId st sid = none)
    (hps : gw.payment_status ≠ "paid") :
    createOrderFromSession st sid gw iF eF = ⟨400, none, st, []⟩ ∧
    (∀ (st' : Store) (session : SessionInfo) (iF' eF' : Bool),
      session.payment_status ≠ "paid" →
      webhookCompleted st' session iF' eF' = ⟨200, none, st', []⟩) := by
  constructor
  · unfold createOrderFromSession
    by_cases hs : sid = ""
    · simp [hs]
    · simp [hs, hfind, hps]
  · intro st' session iF' eF' hps'
    unfold webhookCompleted
    simp [hps']

/-- C3 (witness): the amended payment-gate theorem applied to the empty
store and the unpaid session fixture. -/
theorem payment_gate_amended_witness :
    findBySessionId store0 "cs_3" = none ∧
    gwUnpaid.payment_status ≠ "paid" ∧
    createOrderFromSession store0 "cs_3" gwUnpaid false false = ⟨400, none, store0, []⟩ := by
  refine ⟨rfl, by decide, ?_⟩
  exact (payment_gate_amended store0 "cs_3" gwUnpaid false false rfl (by decide)).1

/-- C4 (counterexample): a duplicate `checkout.session.completed` signal for
an Order whose status is already `shipped` (beyond `pending`) rewrites the
status to `processing`, refuting "updates the Order's status to processing
only if the current status is not already beyond pending". -/
theorem webhook_duplicate_overwrites_shipped :
    rowC4.status = "shipped" ∧
    ((webhookCompleted stC4 sessC4 false false).store.orders.map (fun o => o.status))
      = ["processing"] := by
  constructor <;> rfl

/-- C4 (amended): on a duplicate signal the webhook path updates the Order
to `processing` whenever its current status is anything other than
`processing` (including `shipped`/`delivered`/`cancelled`), and the
`create-order-from-session` duplicate path performs no status write at all
and just returns the existing Order; across all four handler paths the only
statuses ever written are `processing` and `pending` — `shipped`,
`delivered` and `cancelled` are never written. -/
theorem duplicate_transition_amended (st : Store) (session : SessionInfo)
    (iF eF : Bool) (o : OrderRow) (hp : session.payment_status = "paid")
    (hfind : findBySessionId st session.id = some o) :
    (o.status ≠ "processing" →
      webhookCompleted st session iF eF =
        ⟨200, none, updateOrderStatus st o.id "processing" session.id,
          [Ev.statusUpdateEv o.id "processing"]⟩) ∧
    (o.status = "processing" → webhookCompleted st session iF eF = ⟨200, none, st, []⟩) ∧
    (∀ (st' : Store) (sid : String) (gw : SessionInfo) (iF' eF' : Bool) (o' : OrderRow),
      sid ≠ "" → findBySessionId st' sid = some o' →
      createOrderFromSession st' sid gw iF' eF' = ⟨200, some (viewOf st' o'), st', []⟩) ∧
    (∀ (st' : Store) (session' : SessionInfo) (iF' eF' : Bool),
      ∀ s ∈ statusWrites (webhookCompleted st' session' iF' eF').trace,
        s = "processing" ∨ s = "pending") ∧
    (∀ (st' : Store) (sid : String) (gw : SessionInfo) (iF' eF' : Bool),
      ∀ s ∈ statusWrites (createOrderFromSession st' sid gw iF' eF').trace,
        s = "processing" ∨ s = "pending") ∧
    (∀ (st' : Store) (sid : String),
      ∀ s ∈ statusWrites (webhookAsyncSucceeded st' sid).trace,
        s = "processing" ∨ s = "pending") ∧
    (∀ (st' : Store) (sid : String),
      ∀ s ∈ statusWrites (webhookAsyncFailed st' sid).trace,
        s = "processing" ∨ s = "pending") := by
  refine ⟨?_, ?_, ?_, statusWrites_webhookCompleted, statusWrites_createOrderFromSession,
    statusWrites_asyncSucceeded, statusWrites_asyncFailed⟩
  · intro ho
    unfold webhookCompleted
    simp [hp, hfind, ho]
  · intro ho
    unfold webhookCompleted
    simp [hp, hfind, ho]
  · intro st' sid gw iF' eF' o' hs hfind'
    unfold createOrderFromSession
    simp [hs, hfind']

/-- C4 (witness): the amended transition theorem applied to the `shipped`
fixture order. -/
theorem duplicate_transition_amended_witness :
    sessC4.payment_status = "paid" ∧
    findBySessionId stC4 sessC4.id = some rowC4 ∧
    webhookCompleted stC4 sessC4 false false =
      ⟨200, none, updateOrderStatus stC4 rowC4.id "processing" sessC4.id,
        [Ev.statusUpdateEv rowC4.id "processing"]⟩ := by
  refine ⟨rfl, rfl, ?_⟩
  exact (duplicate_transition_amended stC4 sessC4 false false rowC4 rfl rfl).1 (by decide)

/-- C5 (counterexample): on the webhook creation path the confirmation
email is invoked with the Order exactly as `createOrder` returned it — with
no items attached (`none`) — even though the OrderItems were persisted just
before; the Order is not re-fetched.  This refutes "the email is invoked
with the fully-loaded Order re-fetched from the store with its items
attached" for that path. -/
theorem webhook_email_lacks_items :
    emailViews (webhookCompleted store0 sessC5 false false).trace = [none] ∧
    (webhookCompleted store0 sessC5 false false).store.items.length = 1 := by
  constructor <;> rfl

/-- C5 (amended): on both creation paths the OrderItem insertion
happens-before the email dispatch (the trace is insert-order, insert-items,
email); on `create-order-from-session` the email is invoked with the Order
re-fetched with its persisted items attached, but on the webhook path it is
invoked with the bare inserted Order, without items attached. -/
theorem items_email_order_amended (st : Store) (sid : String) (gw : SessionInfo)
    (m : Metadata) (eF : Bool) (hwf : st.wf) (hs : sid ≠ "")
    (hfind : findBySessionId st sid = none) (hp : gw.payment_status = "paid")
    (hm : gw.metadata = some m)
    (hem : (mkShippingInfo m gw.customer_email).email ≠ "") :
    (createOrderFromSession st sid gw false eF).trace =
      [Ev.createOrderEv ((mkOrderData m sid gw.customer_email).toRow st.nextId),
       Ev.addItemsEv (mkOrderItems (m.items.getD []) st.nextId),
       Ev.emailEv ⟨(mkOrderData m sid gw.customer_email).toRow st.nextId,
                   some (mkOrderItems (m.items.getD []) st.nextId)⟩ sid (!eF)] ∧
    (∀ (st' : Store) (session : SessionInfo) (m' : Metadata) (eF' : Bool),
      session.payment_status = "paid" → findBySessionId st' session.id = none →
      session.metadata = some m' →
      (mkShippingInfo m' session.customer_email).email ≠ "" →
      (webhookCompleted st' session false eF').trace =
        [Ev.createOrderEv ((mkOrderData m' session.id session.customer_email).toRow st'.nextId),
         Ev.addItemsEv (mkOrderItems (m'.items.getD []) st'.nextId),
         Ev.emailEv ⟨(mkOrderData m' session.id session.customer_email).toRow st'.nextId, none⟩
           session.id (!eF')]) := by
  constructor
  · rw [cofs_success_run st sid gw m eF hwf hs hfind hp hm hem]
  · intro st' session m' eF' hp' hfind' hm' hem'
    rw [webhook_success_run st' session m' eF' hp' hfind' hm' hem']

/-- C5 (witness): the amended ordering theorem applied to the empty store
and the `cs_5` fixture. -/
theorem items_email_order_amended_witness :
    Store.wf store0 ∧
    (createOrderFromSession store0 "cs_5" sessC5 false false).trace =
      [Ev.createOrderEv ((mkOrderData mdC5 "cs_5" none).toRow 0),
       Ev.addItemsEv (mkOrderItems [⟨"p5", 1, 900⟩] 0),
       Ev.emailEv ⟨(mkOrderData mdC5 "cs_5" none).toRow 0,
                   some (mkOrderItems [⟨"p5", 1, 900⟩] 0)⟩ "cs_5" true] := by
  constructor
  · exact ⟨by simp [store0], by simp [store0]⟩
  · exact (items_email_order_amended store0 "cs_5" sessC5 mdC5 false
      ⟨by simp [store0], by simp [store0]⟩ (by decide) rfl rfl rfl (by decide)).1

/-- C6 (counterexample): for a cart item with fractional base price `21/2`
and no discounts, the code returns the base price unrounded (`21/2`), while
the spec's formula rounds it to the nearest integer (`11`). -/
theorem unit_price_spec_mismatch :
    calculateUnitPrice ⟨⟨"p6", 21 / 2, none⟩, 1, none⟩ ≠
      specUnitPrice ⟨⟨"p6", 21 / 2, none⟩, 1, none⟩ := by
  norm_num [calculateUnitPrice, specUnitPrice, jsRound]

/-- C6 (amended): for every cart item the computed unit price equals
basePrice × (1 − productDiscount/100) rounded to nearest if
productDiscount > 0, else basePrice × (1 − eventDiscount/100) rounded to
nearest if eventDiscount > 0, else basePrice UNROUNDED (product discount
takes precedence over event discount). -/
theorem unit_price_amended (item : CartItem) :
    calculateUnitPrice item = amendedUnitPrice item := by
  rcases item with ⟨⟨pid, price, pd⟩, q, ev⟩
  simp only [calculateUnitPrice, amendedUnitPrice]
  rcases pd with _ | d
  · rcases ev with _ | ⟨edo⟩
    · simp
    · rcases edo with _ | e
      · simp
      · by_cases he : 0 < e <;> simp [he]
  · by_cases hd : 0 < d
    · simp [hd]
    · rcases ev with _ | ⟨edo⟩
      · simp [hd]
      · rcases edo with _ | e
        · simp [hd]
        · by_cases he : 0 < e <;> simp [hd, he]

/-- C7: for every `checkout.session.async_payment_failed` event whose
session has an existing Order, that Order's status is set to `pending`
(never `cancelled`), regardless of its prior status, and no other row is
touched; when no Order exists for the session, nothing is written. -/
theorem async_failed_pending (st : Store) (sid : String) :
    (∀ o, findBySessionId st sid = some o →
      (webhookAsyncFailed st sid).store.orders =
        st.orders.map (fun r =>
          if r.id == o.id then
            { r with status := "pending",
                     stripe_session_id := if sid = "" then r.stripe_session_id else sid }
          else r) ∧
      (webhookAsyncFailed st sid).status = 200 ∧
      statusWrites (webhookAsyncFailed st sid).trace = ["pending"]) ∧
    (findBySessionId st sid = none →
      webhookAsyncFailed st sid = ⟨200, none, st, []⟩) := by
  constructor
  · intro o hf
    unfold webhookAsyncFailed
    rw [hf]
    exact ⟨rfl, rfl, rfl⟩
  · intro hf
    unfold webhookAsyncFailed
    rw [hf]

/-- C7 (witness): the async-failure theorem applied to a `shipped` order for
`cs_7`, whose status becomes `pending`. -/
theorem async_failed_pending_witness :
    findBySessionId stC7 "cs_7" = some rowC7 ∧
    (webhookAsyncFailed stC7 "cs_7").store.orders.map (fun o => o.status) = ["pending"] := by
  refine ⟨rfl, ?_⟩
  rw [((async_failed_pending stC7 "cs_7").1 rowC7 rfl).1]
  rfl

/-- C8: when the OrderItem insertion step throws after the Order has been
persisted, neither creation path rolls the Order back: the store keeps the
Order with its inserted fields unchanged and no items, the handler still
proceeds to the email dispatch, and the invocation returns success (200). -/
theorem items_failure_keeps_order (st : Store) (sid : String) (gw : SessionInfo)
    (m : Metadata) (eF : Bool) (hs : sid ≠ "")
    (hfind : findBySessionId st sid = none) (hp : gw.payment_status = "paid")
    (hm : gw.metadata = some m)
    (hem : (mkShippingInfo m gw.customer_email).email ≠ "") :
    createOrderFromSession st sid gw true eF =
      ⟨200, some ⟨(mkOrderData m sid gw.customer_email).toRow st.nextId, none⟩,
        ⟨st.orders ++ [(mkOrderData m sid gw.customer_email).toRow st.nextId],
          st.items, st.nextId + 1⟩,
        [Ev.createOrderEv ((mkOrderData m sid gw.customer_email).toRow st.nextId),
         Ev.emailEv ⟨(mkOrderData m sid gw.customer_email).toRow st.nextId, none⟩
           sid (!eF)]⟩ ∧
    (∀ (st' : Store) (session : SessionInfo) (m' : Metadata) (eF' : Bool),
      session.payment_status = "paid" → findBySessionId st' session.id = none →
      session.metadata = some m' →
      (mkShippingInfo m' session.customer_email).email ≠ "" →
      webhookCompleted st' session true eF' =
        ⟨200, none,
          ⟨st'.orders ++ [(mkOrderData m' session.id session.customer_email).toRow st'.nextId],
            st'.items, st'.nextId + 1⟩,
          [Ev.createOrderEv ((mkOrderData m' session.id session.customer_email).toRow st'.nextId),
           Ev.emailEv ⟨(mkOrderData m' session.id session.customer_email).toRow st'.nextId, none⟩
             session.id (!eF')]⟩) :=
  ⟨cofs_items_fail_run st sid gw m eF hs hfind hp hm hem,
    fun st' session m' eF' hp' hf' hm' he' =>
      webhook_items_fail_run st' session m' eF' hp' hf' hm' he'⟩

/-- C8 (witness): the items-failure theorem applied to the empty store and
the `cs_8` fixture. -/
theorem items_failure_keeps_order_witness :
    findBySessionId store0 "cs_8" = none ∧
    (createOrderFromSession store0 "cs_8" sessC8 true false).status = 200 ∧
    (createOrderFromSession store0 "cs_8" sessC8 true false).store.orders =
      [(mkOrderData mdC8 "cs_8" none).toRow 0] := by
  refine ⟨rfl, ?_, ?_⟩
  · rw [(items_failure_keeps_order store0 "cs_8" sessC8 mdC8 false (by decide)
      rfl rfl rfl (by decide)).1]
  · rw [(items_failure_keeps_order store0 "cs_8" sessC8 mdC8 false (by decide)
      rfl rfl rfl (by decide)).1]
    rfl

/-- C9: a throwing confirmation-email dispatch changes nothing in the
response status, the returned order, or the persisted store, for both
creation paths and for all inputs; and on a successful materialization the
invocation still returns 200 with the persisted Order even when the email
throws. -/
theorem email_failure_harmless (st : Store) (sid : String) (gw : SessionInfo)
    (m : Metadata) (iF : Bool) (hwf : st.wf) (hs : sid ≠ "")
    (hfind : findBySessionId st sid = none) (hp : gw.payment_status = "paid")
    (hm : gw.metadata = some m)
    (hem : (mkShippingInfo m gw.customer_email).email ≠ "") :
    (∀ (st' : Store) (sid' : String) (gw' : SessionInfo) (iF' : Bool),
      (createOrderFromSession st' sid' gw' iF' true).status =
        (createOrderFromSession st' sid' gw' iF' false).status ∧
      (createOrderFromSession st' sid' gw' iF' true).order =
        (createOrderFromSession st' sid' gw' iF' false).order ∧
      (createOrderFromSession st' sid' gw' iF' true).store =
        (createOrderFromSession st' sid' gw' iF' false).store) ∧
    (∀ (st' : Store) (session : SessionInfo) (iF' : Bool),
      (webhookCompleted st' session iF' true).status =
        (webhookCompleted st' session iF' false).status ∧
      (webhookCompleted st' session iF' true).store =
        (webhookCompleted st' session iF' false).store) ∧
    (createOrderFromSession st sid gw iF true).status = 200 ∧
    ((createOrderFromSession st sid gw iF true).order).isSome = true := by
  refine ⟨cofs_email_indep, webhook_email_indep, ?_, ?_⟩
  · cases iF with
    | true => rw [cofs_items_fail_run st sid gw m true hs hfind hp hm hem]
    | false => rw [cofs_success_run st sid gw m true hwf hs hfind hp hm hem]
  · cases iF with
    | true => rw [cofs_items_fail_run st sid gw m true hs hfind hp hm hem]; rfl
    | false => rw [cofs_success_run st sid gw m true hwf hs hfind hp hm hem]; rfl

/-- C9 (witness): the email-failure theorem applied to the empty store and
the `cs_9` fixture with a throwing email dispatch. -/
theorem email_failure_harmless_witness :
    findBySessionId store0 "cs_9" = none ∧
    (createOrderFromSession store0 "cs_9" sessC9 false true).status = 200 := by
  refine ⟨rfl, ?_⟩
  exact (email_failure_harmless store0 "cs_9" sessC9 mdC9 false
    ⟨by simp [store0], by simp [store0]⟩ (by decide) rfl rfl rfl (by decide)).2.2.1

/-- C10: on both order-creation paths the order fields come from
integer-parsing the metadata strings (both handlers build the row through
`mkOrderData`): an absent or empty `metadata.total` or
`metadata.discount_amount` yields the value 0 rather than a rejection, the
fractional string "1849.5" is truncated to 1849, and the currency defaults
to "SEK" when absent. -/
theorem metadata_amount_parsing (m : Metadata) (sid : String) (cust : Option String) :
    ((m.total = none ∨ m.total = some "") →
      (mkOrderData m sid cust).total_amount = some 0) ∧
    ((m.discount_amount = none ∨ m.discount_amount = some "") →
      (mkOrderData m sid cust).discount_amount = some 0) ∧
    (m.total = some "1849.5" → (mkOrderData m sid cust).total_amount = some 1849) ∧
    (m.currency = none → (mkOrderData m sid cust).currency = "SEK") := by
  refine ⟨?_, ?_, ?_, ?_⟩
  · rintro (h | h) <;> simp [mkOrderData, h, orFalsy] <;> decide
  · rintro (h | h) <;> simp [mkOrderData, h, orFalsy] <;> decide
  · intro h
    simp [mkOrderData, h, orFalsy]
    decide
  · intro h
    simp [mkOrderData, h, orFalsy]

/-- C10 (witness): the parsing theorem applied to the concrete metadata
fixture `mdC10`. -/
theorem metadata_amount_parsing_witness :
    (mdC10.total = some "1849.5" ∧ mdC10.discount_amount = some "" ∧ mdC10.currency = none) ∧
    (mkOrderData mdC10 "cs_10" none).total_amount = some 1849 ∧
    (mkOrderData mdC10 "cs_10" none).discount_amount = some 0 ∧
    (mkOrderData mdC10 "cs_10" none).currency = "SEK" := by
  refine ⟨⟨rfl, rfl, rfl⟩, ?_, ?_, ?_⟩
  · exact (metadata_amount_parsing mdC10 "cs_10" none).2.2.1 rfl
  · exact (metadata_amount_parsing mdC10 "cs_10" none).2.1 (Or.inr rfl)
  · exact (metadata_amount_parsing mdC10 "cs_10" none).2.2.2 rfl

end Backend
